import Mathlib

/-!
Shallow embedding of the usage-quota snapshot pipeline of claude-log-viewer:
the SQLite-backed Snapshot Store and session table (`database.py`), the
in-process usage poller `fetch_usage_data` (`app.py`), and the OAuth-refresh
poller protocol.  Python values are modelled as follows: SQLite NULLable
columns become `Option`, INTEGER becomes `Int`, REAL becomes `Rat`, TEXT
becomes `String`; a Python function that can raise becomes `Except String`.
-/

/-- A value passed as a session-id entry: either a Python string or a value of
some other Python type (carrying the name of that type, used in the error
message of `validate_session_ids`). -/
inductive SessVal where
  | str (s : String)
  | nonStr (typeName : String)
deriving Repr, DecidableEq

/-- Character class accepted by `validate_session_ids`: alphanumeric, `-` or
`_` (mirrors `c.isalnum() or c in resulting set` in `database.py`). -/
def isValidSessChar (c : Char) : Bool :=
  c.isAlphanum || c = '-' || c = '_'

/-- Python `str.strip()`: remove leading and trailing whitespace. -/
def pyStrip (s : String) : String :=
  String.mk (((s.data.dropWhile Char.isWhitespace).reverse.dropWhile
    Char.isWhitespace).reverse)

/-- Validation of a single session-id entry, mirroring the loop body of
`validate_session_ids` in `database.py`: non-strings, empty or
whitespace-only strings, strings longer than 100 characters, and strings with
a character outside `isValidSessChar` are rejected; an accepted entry is
stripped before being collected. -/
def validateOne (v : SessVal) : Except String String :=
  match v with
  | SessVal.nonStr typeName =>
      Except.error ("Session ID must be string, got " ++ typeName)
  | SessVal.str s =>
      if pyStrip s = "" then
        Except.error "Session ID cannot be empty"
      else if 100 < s.data.length then
        Except.error ("Session ID too long: " ++ toString s.data.length ++ " chars")
      else if s.data.all isValidSessChar then
        Except.ok (pyStrip s)
      else
        Except.error ("Session ID contains invalid characters: " ++ s)

/-- Embedding of `validate_session_ids` in `database.py`: the empty list is
returned as-is, otherwise every entry is validated and the first failure
raises (`Except.error`). -/
def validate_session_ids (ids : List SessVal) : Except String (List String) :=
  if ids.isEmpty then Except.ok []
  else ids.mapM validateOne

/-- Embedding of `json.dumps` on a validated list of session ids (the entries
contain only alphanumerics, `-` and `_`, so no JSON escaping arises). -/
def jsonDumps (xs : List String) : String :=
  "[" ++ String.intercalate ", " (xs.map (fun s => "\"" ++ s ++ "\"")) ++ "]"

/-- One row of the `usage_snapshots` table (schema in `init_db`,
`database.py`): NULLable columns are `Option`. -/
structure SnapshotRow where
  id : Nat
  timestamp : String
  five_hour_used : Int
  five_hour_limit : Int
  seven_day_used : Int
  seven_day_limit : Int
  five_hour_pct : Option Rat
  seven_day_pct : Option Rat
  five_hour_reset : Option String
  seven_day_reset : Option String
  five_hour_tokens_consumed : Option Int
  five_hour_messages_count : Option Int
  seven_day_tokens_consumed : Option Int
  seven_day_messages_count : Option Int
  five_hour_tokens_total : Option Int
  five_hour_messages_total : Option Int
  seven_day_tokens_total : Option Int
  seven_day_messages_total : Option Int
  active_sessions : Option String
  recalculated : Int
  created_at : String
deriving Repr, DecidableEq

/-- The `usage_snapshots` table: rows in rowid (insertion) order, plus the
next AUTOINCREMENT id. -/
structure SnapshotStore where
  rows : List SnapshotRow
  nextId : Nat
deriving Repr, DecidableEq

/-- Well-formedness of a snapshot store: every persisted rowid is below the
AUTOINCREMENT counter (true of every store SQLite can produce). -/
def SnapshotStore.WF (db : SnapshotStore) : Prop :=
  ∀ r ∈ db.rows, r.id < db.nextId

/-- A freshly initialised (empty) snapshot store; AUTOINCREMENT starts at 1. -/
def SnapshotStore.empty : SnapshotStore :=
  { rows := [], nextId := 1 }

/-- Embedding of `insert_snapshot_tick` in `database.py` (Phase 1 of the
two-phase write): inserts a row carrying only the raw API reading, with all
eight delta/total columns and `active_sessions` set to NULL and
`recalculated` set to 0, and returns the new rowid.  `created_at` stands for
the engine's CURRENT_TIMESTAMP default. -/
def insert_snapshot_tick (db : SnapshotStore) (timestamp : String)
    (five_hour_used five_hour_limit seven_day_used seven_day_limit : Int)
    (five_hour_pct seven_day_pct : Option Rat)
    (five_hour_reset seven_day_reset : Option String)
    (created_at : String) : Nat × SnapshotStore :=
  let row : SnapshotRow :=
    { id := db.nextId
      timestamp := timestamp
      five_hour_used := five_hour_used
      five_hour_limit := five_hour_limit
      seven_day_used := seven_day_used
      seven_day_limit := seven_day_limit
      five_hour_pct := five_hour_pct
      seven_day_pct := seven_day_pct
      five_hour_reset := five_hour_reset
      seven_day_reset := seven_day_reset
      five_hour_tokens_consumed := none
      five_hour_messages_count := none
      seven_day_tokens_consumed := none
      seven_day_messages_count := none
      five_hour_tokens_total := none
      five_hour_messages_total := none
      seven_day_tokens_total := none
      seven_day_messages_total := none
      active_sessions := none
      recalculated := 0
      created_at := created_at }
  (db.nextId, { rows := db.rows ++ [row], nextId := db.nextId + 1 })

/-- Semantics of one SET clause of the dynamically built UPDATE in
`update_snapshot_calculations`: a supplied value overwrites the column, an
absent one leaves it untouched. -/
def updCol {α : Type} (arg old : Option α) : Option α :=
  match arg with
  | some v => some v
  | none => old

/-- Embedding of `update_snapshot_calculations` in `database.py` (Phase 2):
first validates `active_sessions` (raising on an invalid entry, before any
write), then returns without writing if no field was supplied, otherwise
updates exactly the supplied columns of the row with the given id. -/
def update_snapshot_calculations (db : SnapshotStore) (snapshot_id : Nat)
    (five_hour_tokens_consumed five_hour_messages_count
     seven_day_tokens_consumed seven_day_messages_count
     five_hour_tokens_total five_hour_messages_total
     seven_day_tokens_total seven_day_messages_total : Option Int)
    (active_sessions : Option (List SessVal)) : Except String SnapshotStore :=
  match (match active_sessions with
         | some ids => Except.map (fun v => some (jsonDumps v)) (validate_session_ids ids)
         | none => Except.ok none) with
  | Except.error e => Except.error e
  | Except.ok active_sessions_json =>
      if five_hour_tokens_consumed.isNone && five_hour_messages_count.isNone &&
         seven_day_tokens_consumed.isNone && seven_day_messages_count.isNone &&
         five_hour_tokens_total.isNone && five_hour_messages_total.isNone &&
         seven_day_tokens_total.isNone && seven_day_messages_total.isNone &&
         active_sessions_json.isNone then
        Except.ok db
      else
        Except.ok
          { db with
            rows := db.rows.map (fun r =>
              if r.id = snapshot_id then
                { r with
                  five_hour_tokens_consumed :=
                    updCol five_hour_tokens_consumed r.five_hour_tokens_consumed
                  five_hour_messages_count :=
                    updCol five_hour_messages_count r.five_hour_messages_count
                  seven_day_tokens_consumed :=
                    updCol seven_day_tokens_consumed r.seven_day_tokens_consumed
                  seven_day_messages_count :=
                    updCol seven_day_messages_count r.seven_day_messages_count
                  five_hour_tokens_total :=
                    updCol five_hour_tokens_total r.five_hour_tokens_total
                  five_hour_messages_total :=
                    updCol five_hour_messages_total r.five_hour_messages_total
                  seven_day_tokens_total :=
                    updCol seven_day_tokens_total r.seven_day_tokens_total
                  seven_day_messages_total :=
                    updCol seven_day_messages_total r.seven_day_messages_total
                  active_sessions :=
                    updCol active_sessions_json r.active_sessions }
              else r) }

/-- Embedding of the legacy one-phase `insert_snapshot` in `database.py`: an
invalid `active_sessions` is caught, warned about and stored as NULL (the
insert still happens); the `recalculated` column is not named in the INSERT
so it takes its schema default 0. -/
def insert_snapshot (db : SnapshotStore) (timestamp : String)
    (five_hour_used five_hour_limit seven_day_used seven_day_limit : Int)
    (five_hour_pct seven_day_pct : Option Rat)
    (five_hour_reset seven_day_reset : Option String)
    (five_hour_tokens_consumed five_hour_messages_count
     seven_day_tokens_consumed seven_day_messages_count
     five_hour_tokens_total five_hour_messages_total
     seven_day_tokens_total seven_day_messages_total : Option Int)
    (active_sessions : Option (List SessVal))
    (created_at : String) : Nat × SnapshotStore :=
  let active_sessions_json : Option String :=
    match active_sessions with
    | some ids =>
        match validate_session_ids ids with
        | Except.ok v => some (jsonDumps v)
        | Except.error _ => none
    | none => none
  let row : SnapshotRow :=
    { id := db.nextId
      timestamp := timestamp
      five_hour_used := five_hour_used
      five_hour_limit := five_hour_limit
      seven_day_used := seven_day_used
      seven_day_limit := seven_day_limit
      five_hour_pct := five_hour_pct
      seven_day_pct := seven_day_pct
      five_hour_reset := five_hour_reset
      seven_day_reset := seven_day_reset
      five_hour_tokens_consumed := five_hour_tokens_consumed
      five_hour_messages_count := five_hour_messages_count
      seven_day_tokens_consumed := seven_day_tokens_consumed
      seven_day_messages_count := seven_day_messages_count
      five_hour_tokens_total := five_hour_tokens_total
      five_hour_messages_total := five_hour_messages_total
      seven_day_tokens_total := seven_day_tokens_total
      seven_day_messages_total := seven_day_messages_total
      active_sessions := active_sessions_json
      recalculated := 0
      created_at := created_at }
  (db.nextId, { rows := db.rows ++ [row], nextId := db.nextId + 1 })

/-- Embedding of `get_snapshot_by_id` in `database.py`: the first row (in
rowid order) whose id matches, or `none`. -/
def get_snapshot_by_id (db : SnapshotStore) (snapshot_id : Nat) : Option SnapshotRow :=
  db.rows.find? (fun r => r.id = snapshot_id)

/-- Embedding of `get_latest_snapshot` in `database.py` (ORDER BY timestamp
DESC LIMIT 1): a row whose TEXT timestamp is maximal under SQLite's binary
collation, modelled by the lexicographic order on `String`; `none` on an
empty table.  `latestStep` is the accumulator step: keep whichever row has
the later timestamp, preferring the earlier row on ties. -/
def latestStep (acc : Option SnapshotRow) (r : SnapshotRow) : Option SnapshotRow :=
  match acc with
  | none => some r
  | some m => if m.timestamp < r.timestamp then some r else some m

def get_latest_snapshot (db : SnapshotStore) : Option SnapshotRow :=
  db.rows.foldl latestStep none

/-- One row of the `session_details` table (schema in `init_db`,
`database.py`): `session_id` carries a UNIQUE constraint; `has_plans` and
`has_todos` are stored as INTEGER 0/1. -/
structure SessionRow where
  id : Nat
  session_id : String
  start_time : String
  end_time : Option String
  total_messages : Int
  total_tokens : Int
  input_tokens : Int
  output_tokens : Int
  model_used : Option String
  has_plans : Int
  has_todos : Int
  plan_count : Int
  todo_count : Int
  created_at : String
  updated_at : String
deriving Repr, DecidableEq

/-- The `session_details` table: rows in rowid order plus the next
AUTOINCREMENT id. -/
structure SessionStore where
  rows : List SessionRow
  nextId : Nat
deriving Repr, DecidableEq

/-- Well-formedness of the session table: every rowid is below the
AUTOINCREMENT counter. -/
def SessionStore.WF (db : SessionStore) : Prop :=
  ∀ r ∈ db.rows, r.id < db.nextId

/-- A freshly initialised (empty) session table. -/
def SessionStore.empty : SessionStore :=
  { rows := [], nextId := 1 }

/-- Embedding of `insert_session` in `database.py`: INSERT OR REPLACE keyed
by the UNIQUE `session_id` deletes any conflicting row and inserts a fresh
one, which therefore receives a new AUTOINCREMENT id; `created_at` is not
named in the INSERT so it takes its CURRENT_TIMESTAMP default, and
`updated_at` is set explicitly to CURRENT_TIMESTAMP — both are modelled by
the `current_timestamp` argument.  Parameters follow the Python signature;
a caller omitting an argument passes the Python default (0, `false` or
`none`). -/
def insert_session (db : SessionStore) (session_id start_time : String)
    (total_messages total_tokens input_tokens output_tokens : Int)
    (model_used : Option String) (has_plans has_todos : Bool)
    (plan_count todo_count : Int) (end_time : Option String)
    (current_timestamp : String) : SessionStore :=
  let row : SessionRow :=
    { id := db.nextId
      session_id := session_id
      start_time := start_time
      end_time := end_time
      total_messages := total_messages
      total_tokens := total_tokens
      input_tokens := input_tokens
      output_tokens := output_tokens
      model_used := model_used
      has_plans := if has_plans then 1 else 0
      has_todos := if has_todos then 1 else 0
      plan_count := plan_count
      todo_count := todo_count
      created_at := current_timestamp
      updated_at := current_timestamp }
  { rows := db.rows.filter (fun r => r.session_id ≠ session_id) ++ [row]
    nextId := db.nextId + 1 }

/-- Embedding of `get_session_details` in `database.py`: the first row whose
`session_id` matches, or `none`. -/
def get_session_details (db : SessionStore) (session_id : String) : Option SessionRow :=
  db.rows.find? (fun r => r.session_id = session_id)

/-- One window sub-object of the remote usage API response body (`five_hour`
or `seven_day`): the fields `fetch_usage_data` reads, each possibly absent. -/
structure WindowInfo where
  utilization : Option Rat
  resets_at : Option String
deriving Repr, DecidableEq

/-- The parsed JSON body of a 200 response of the remote usage API, as read
by `fetch_usage_data` in `app.py`: either sub-object may be absent. -/
structure UsageData where
  five_hour : Option WindowInfo
  seven_day : Option WindowInfo
deriving Repr, DecidableEq

/-- Embedding of `data.get(window, dict()).get(str, 0)` in `app.py`: the
utilization of a window, defaulting to 0 when the window or the field is
absent. -/
def utilOf (w : Option WindowInfo) : Rat :=
  match w with
  | some info => info.utilization.getD 0
  | none => 0

/-- Embedding of `window.get(str)` for the reset timestamp: `none` when the
window or the field is absent. -/
def resetOf (w : Option WindowInfo) : Option String :=
  match w with
  | some info => info.resets_at
  | none => none

/-- Python `int()` on a float/rational: truncation toward zero. -/
def pyTrunc (q : Rat) : Int :=
  if 0 ≤ q then q.floor else -((-q).floor)

/-- Outcome of the `requests.get` call in `fetch_usage_data`: an HTTP
response with status, parsed JSON body and raw text, or a raised network
exception carrying its message. -/
inductive HttpOutcome where
  | response (status : Nat) (body : UsageData) (text : String)
  | netError (msg : String)
deriving Repr, DecidableEq

/-- The module-level `usage_cache` dict of `app.py`. -/
structure UsageCache where
  data : Option UsageData
  timestamp : Rat
  cache_duration : Rat
deriving Repr, DecidableEq

/-- The module-level `previous_usage` dict of `app.py`: last observed
utilization per window, unset on process start. -/
structure PrevUsage where
  five_hour_used : Option Rat
  seven_day_used : Option Rat
deriving Repr, DecidableEq

/-- All state read or written by one call of `fetch_usage_data`: the cache,
the previous-usage watermark, and the snapshot table it inserts into. -/
structure PollerState where
  cache : UsageCache
  previous : PrevUsage
  db : SnapshotStore
deriving Repr, DecidableEq

/-- Return value of `fetch_usage_data`: the parsed usage data, or an error
dict with an optional `details` entry. -/
inductive FetchResult where
  | payload (d : UsageData)
  | error (msg : String) (details : Option String)
deriving Repr, DecidableEq

/-- The reconciler check of `fetch_usage_data` in `app.py`: usage counts as
increased when at least one previous value is set and the corresponding new
utilization is strictly greater (the nested `if` mirrors the Python
`if ... is not None or ... is not None` guard around the comparison). -/
def shouldSnapshot (prev : PrevUsage) (five_hour_util seven_day_util : Rat) : Bool :=
  if prev.five_hour_used.isSome || prev.seven_day_used.isSome then
    (match prev.five_hour_used with
     | some p => decide (p < five_hour_util)
     | none => false) ||
    (match prev.seven_day_used with
     | some p => decide (p < seven_day_util)
     | none => false)
  else false

/-- The non-cached path of `fetch_usage_data` in `app.py` (token check,
request, 200/other/exception handling).  On 200 it runs the reconciler
check against `previous_usage`, inserts a one-phase snapshot only when
usage increased, then unconditionally overwrites both previous-usage slots
and the cache.  On any other status or a network error it returns an error
payload and leaves the whole state untouched. -/
def fetchNetwork (st : PollerState) (current_time : Rat) (token : Option String)
    (outcome : HttpOutcome) (now : String) : FetchResult × PollerState :=
  match token with
  | none => (FetchResult.error "Failed to retrieve OAuth token from Keychain" none, st)
  | some _ =>
      match outcome with
      | HttpOutcome.netError msg => (FetchResult.error msg none, st)
      | HttpOutcome.response status body text =>
          if status = 200 then
            let five_hour_util := utilOf body.five_hour
            let seven_day_util := utilOf body.seven_day
            let should_snapshot := shouldSnapshot st.previous five_hour_util seven_day_util
            let db' :=
              if should_snapshot then
                (insert_snapshot st.db now
                  (pyTrunc five_hour_util) 100 (pyTrunc seven_day_util) 100
                  (some five_hour_util) (some seven_day_util)
                  (resetOf body.five_hour) (resetOf body.seven_day)
                  none none none none none none none none none now).2
              else st.db
            (FetchResult.payload body,
             { cache := { data := some body
                          timestamp := current_time
                          cache_duration := st.cache.cache_duration }
               previous := { five_hour_used := some five_hour_util
                             seven_day_used := some seven_day_util }
               db := db' })
          else
            (FetchResult.error ("API returned status " ++ toString status) (some text), st)

/-- Embedding of `fetch_usage_data` in `app.py`: serve the cached data when
it exists and is younger than the TTL, otherwise go to the network
(`fetchNetwork`).  `current_time` stands for `time.time()`, `token` for the
result of `get_oauth_token()`, `outcome` for the `requests.get` call, and
`now` for `datetime.utcnow()`. -/
def fetch_usage_data (st : PollerState) (current_time : Rat) (token : Option String)
    (outcome : HttpOutcome) (now : String) : FetchResult × PollerState :=
  match st.cache.data with
  | some d =>
      if current_time - st.cache.timestamp < st.cache.cache_duration then
        (FetchResult.payload d, st)
      else fetchNetwork st current_time token outcome now
  | none => fetchNetwork st current_time token outcome now

/-- Result of one `ApiPoller._fetch_usage` cycle together with the
observable counters the spec talks about. -/
structure PollCycleOutcome where
  result : Option UsageData
  finalToken : String
  outboundCalls : Nat
  refreshRequests : Nat
deriving Repr, DecidableEq

/-- Modelled from the spec: `ApiPoller._fetch_usage` lives in
`api_poller.py`, which is not under `src/` (only its unit tests in
`src/tests/unit/test_api_poller.py` are); modelled from spec section 4.4
step 5.  `resp1` and `resp2` are the remote responses to the first request
and to the retry (status code and body); `refreshed` is what the Credential
Provider returns when asked for a fresh token.  On a 200 the data is
returned after one call; on a 401 exactly one fresh token is requested — if
it is identical the cycle aborts with failure after one outbound call,
otherwise the request is retried exactly once with the new token and the
retry outcome is final; any other status fails after one call. -/
def pollerFetchUsage (token : String) (resp1 resp2 : Nat × UsageData)
    (refreshed : Option String) : PollCycleOutcome :=
  if resp1.1 = 200 then
    { result := some resp1.2, finalToken := token, outboundCalls := 1, refreshRequests := 0 }
  else if resp1.1 = 401 then
    match refreshed with
    | none =>
        { result := none, finalToken := token, outboundCalls := 1, refreshRequests := 1 }
    | some t2 =>
        if t2 = token then
          { result := none, finalToken := token, outboundCalls := 1, refreshRequests := 1 }
        else if resp2.1 = 200 then
          { result := some resp2.2, finalToken := t2, outboundCalls := 2, refreshRequests := 1 }
        else
          { result := none, finalToken := t2, outboundCalls := 2, refreshRequests := 1 }
  else
    { result := none, finalToken := token, outboundCalls := 1, refreshRequests := 0 }

/-! Helper lemmas and concrete fixtures. -/

/-- The empty usage body (both windows absent). -/
def emptyUsageData : UsageData := { five_hour := none, seven_day := none }

/-- A concrete usage body with the given utilizations. -/
def mkUsageData (u5 u7 : Rat) : UsageData :=
  { five_hour := some { utilization := some u5, resets_at := none }
    seven_day := some { utilization := some u7, resets_at := none } }

/-- A concrete Phase-1 row (raw reading only), used in fixtures. -/
def mkTickRow (i : Nat) (ts : String) (fhu sdu : Int) : SnapshotRow :=
  { id := i
    timestamp := ts
    five_hour_used := fhu
    five_hour_limit := 100
    seven_day_used := sdu
    seven_day_limit := 100
    five_hour_pct := none
    seven_day_pct := none
    five_hour_reset := none
    seven_day_reset := none
    five_hour_tokens_consumed := none
    five_hour_messages_count := none
    seven_day_tokens_consumed := none
    seven_day_messages_count := none
    five_hour_tokens_total := none
    five_hour_messages_total := none
    seven_day_tokens_total := none
    seven_day_messages_total := none
    active_sessions := none
    recalculated := 0
    created_at := ts }

/-- A one-row store holding a fresh Phase-1 tick. -/
def sampleStore : SnapshotStore :=
  { rows := [mkTickRow 1 "2025-11-11T10:00:00Z" 75 45], nextId := 2 }

/-- `sampleStore` after Phase 2 sets `five_hour_tokens_consumed` to 5. -/
def sampleStoreUpdated : SnapshotStore :=
  { rows := [{ mkTickRow 1 "2025-11-11T10:00:00Z" 75 45 with
               five_hour_tokens_consumed := some 5 }]
    nextId := 2 }

/-- A store whose rows are not in timestamp order (ids 1, 3, 2 with
timestamps 01, 03, 02). -/
def latestDb : SnapshotStore :=
  { rows := [mkTickRow 1 "2025-01-01T00:00:00Z" 10 10,
             mkTickRow 3 "2025-01-03T00:00:00Z" 30 30,
             mkTickRow 2 "2025-01-02T00:00:00Z" 20 20]
    nextId := 4 }

theorem find?_append_none {α : Type} (p : α → Bool) {l₁ : List α} (l₂ : List α)
    (h : l₁.find? p = none) : (l₁ ++ l₂).find? p = l₂.find? p := by
  simp [List.find?_append, h]

theorem WF_find?_nextId (db : SnapshotStore) (h : db.WF) :
    db.rows.find? (fun r => r.id = db.nextId) = none := by
  rw [List.find?_eq_none]
  intro x hx
  simp only [decide_eq_true_eq]
  exact Nat.ne_of_lt (h x hx)

theorem updCol_frame {α : Type} (a o : Option α) :
    updCol a o = o ∨ (updCol a o).isSome = true := by
  cases a
  · exact Or.inl rfl
  · exact Or.inr rfl

theorem list_map_comp_proj {α β : Type} {f : α → α} {g : α → β}
    (h : ∀ x, g (f x) = g x) : ∀ l : List α, (l.map f).map g = l.map g := by
  intro l
  induction l with
  | nil => rfl
  | cons x xs ih => simp [h, ih]

theorem latestStep_none (r : SnapshotRow) : latestStep none r = some r := rfl

theorem latestStep_some (m r : SnapshotRow) :
    latestStep (some m) r = if m.timestamp < r.timestamp then some r else some m := rfl

theorem latestFold_spec (l : List SnapshotRow) : ∀ m : SnapshotRow,
    ∃ r, List.foldl latestStep (some m) l = some r ∧ (r = m ∨ r ∈ l) ∧
      m.timestamp ≤ r.timestamp ∧ ∀ x ∈ l, x.timestamp ≤ r.timestamp := by
  induction l with
  | nil =>
      intro m
      exact ⟨m, rfl, Or.inl rfl, le_refl _, by intro x hx; cases hx⟩
  | cons x xs ih =>
      intro m
      rw [List.foldl_cons, latestStep_some]
      by_cases hlt : m.timestamp < x.timestamp
      · rw [if_pos hlt]
        obtain ⟨r, hr, hmem, hle, hall⟩ := ih x
        refine ⟨r, hr, ?_, le_trans (le_of_lt hlt) hle, ?_⟩
        · rcases hmem with he | hm
          · exact Or.inr (by rw [he]; exact List.mem_cons_self x xs)
          · exact Or.inr (List.mem_cons_of_mem x hm)
        · intro y hy
          rcases List.mem_cons.mp hy with he | hm
          · rw [he]; exact hle
          · exact hall y hm
      · rw [if_neg hlt]
        obtain ⟨r, hr, hmem, hle, hall⟩ := ih m
        refine ⟨r, hr, ?_, hle, ?_⟩
        · rcases hmem with he | hm
          · exact Or.inl he
          · exact Or.inr (List.mem_cons_of_mem x hm)
        intro y hy
        rcases List.mem_cons.mp hy with he | hm
        · rw [he]; exact le_trans (le_of_not_lt hlt) hle
        · exact hall y hm

/-- C5: for every call to `insert_snapshot_tick` on a well-formed store, the
row read back by `get_snapshot_by_id` at the returned id has all eight
delta/total fields NULL, `active_sessions` NULL, and `recalculated` 0. -/
theorem insert_tick_null_calculations (db : SnapshotStore) (h : db.WF)
    (ts : String) (fhu fhl sdu sdl : Int) (p q : Option Rat)
    (fr sr : Option String) (ca : String) :
    ∃ row, get_snapshot_by_id (insert_snapshot_tick db ts fhu fhl sdu sdl p q fr sr ca).2
        (insert_snapshot_tick db ts fhu fhl sdu sdl p q fr sr ca).1 = some row ∧
      row.five_hour_tokens_consumed = none ∧ row.five_hour_messages_count = none ∧
      row.seven_day_tokens_consumed = none ∧ row.seven_day_messages_count = none ∧
      row.five_hour_tokens_total = none ∧ row.five_hour_messages_total = none ∧
      row.seven_day_tokens_total = none ∧ row.seven_day_messages_total = none ∧
      row.active_sessions = none ∧ row.recalculated = 0 := by
  refine ⟨{ id := db.nextId
            timestamp := ts
            five_hour_used := fhu
            five_hour_limit := fhl
            seven_day_used := sdu
            seven_day_limit := sdl
            five_hour_pct := p
            seven_day_pct := q
            five_hour_reset := fr
            seven_day_reset := sr
            five_hour_tokens_consumed := none
            five_hour_messages_count := none
            seven_day_tokens_consumed := none
            seven_day_messages_count := none
            five_hour_tokens_total := none
            five_hour_messages_total := none
            seven_day_tokens_total := none
            seven_day_messages_total := none
            active_sessions := none
            recalculated := 0
            created_at := ca }, ?_, rfl, rfl, rfl, rfl, rfl, rfl, rfl, rfl, rfl, rfl⟩
  unfold get_snapshot_by_id insert_snapshot_tick
  rw [find?_append_none _ _ (WF_find?_nextId db h)]
  simp [List.find?]

/-- C5 witness: the spec's end-to-end example `insert_tick(t0, 75,100,45,100)`
on the empty store. -/
theorem insert_tick_null_calculations_witness :
    ∃ row, get_snapshot_by_id
        (insert_snapshot_tick SnapshotStore.empty "2025-11-11T10:00:00Z" 75 100 45 100
          none none none none "2025-11-11T10:00:00Z").2
        (insert_snapshot_tick SnapshotStore.empty "2025-11-11T10:00:00Z" 75 100 45 100
          none none none none "2025-11-11T10:00:00Z").1 = some row ∧
      row.five_hour_tokens_consumed = none ∧ row.five_hour_messages_count = none ∧
      row.seven_day_tokens_consumed = none ∧ row.seven_day_messages_count = none ∧
      row.five_hour_tokens_total = none ∧ row.five_hour_messages_total = none ∧
      row.seven_day_tokens_total = none ∧ row.seven_day_messages_total = none ∧
      row.active_sessions = none ∧ row.recalculated = 0 :=
  insert_tick_null_calculations SnapshotStore.empty
    (by intro r hr; cases hr) "2025-11-11T10:00:00Z" 75 100 45 100 none none none none
    "2025-11-11T10:00:00Z"

/-- Projection of the columns a five-hour-only update must not touch. -/
def sevenDayView (r : SnapshotRow) :
    Nat × String × Option Int × Option Int × Option Int × Option Int × Option String :=
  (r.id, r.timestamp, r.seven_day_tokens_consumed, r.seven_day_messages_count,
   r.seven_day_tokens_total, r.seven_day_messages_total, r.active_sessions)

/-- C6: `update_snapshot_calculations` writes only the columns it is given:
with zero fields supplied it returns the store unchanged (no write), and a
call supplying only five-hour fields leaves the id, the timestamp, every
seven-day delta/total column and `active_sessions` of every row at their
prior values. -/
theorem update_calculations_frame (db : SnapshotStore) (sid : Nat) :
    update_snapshot_calculations db sid none none none none none none none none none
      = Except.ok db ∧
    ∀ a b c d : Option Int, ∃ db2,
      update_snapshot_calculations db sid a b none none c d none none none
        = Except.ok db2 ∧
      db2.nextId = db.nextId ∧
      db2.rows.map sevenDayView = db.rows.map sevenDayView := by
  constructor
  · rfl
  · intro a b c d
    unfold update_snapshot_calculations
    split
    · rename_i e he
      have he2 : Except.ok (none : Option String) = Except.error e := he
      cases he2
    · rename_i asJson he
      have he2 : Except.ok (none : Option String) = Except.ok asJson := he
      injection he2 with he3
      subst he3
      split
      · exact ⟨db, rfl, rfl, rfl⟩
      · refine ⟨_, rfl, rfl, ?_⟩
        apply list_map_comp_proj
        intro r
        by_cases hr : r.id = sid
        · simp [hr, sevenDayView, updCol]
        · simp [hr]

/-- C6 witness: the frame property instantiated on a concrete one-row store
and the update `five_hour_tokens_consumed := 7`. -/
theorem update_calculations_frame_witness :
    update_snapshot_calculations sampleStore 1 none none none none none none none none none
      = Except.ok sampleStore ∧
    (∃ db2, update_snapshot_calculations sampleStore 1 (some 7) none none none none none
        none none none = Except.ok db2 ∧
      db2.nextId = sampleStore.nextId ∧
      db2.rows.map sevenDayView = sampleStore.rows.map sevenDayView) :=
  ⟨(update_calculations_frame sampleStore 1).1,
   (update_calculations_frame sampleStore 1).2 (some 7) none none none⟩

/-- C9: every successful call of `update_snapshot_calculations` either leaves
each of the eight delta/total columns and `active_sessions` of a row
unchanged or sets it to a non-NULL value — a supplied `none` means "not
given", so no already-populated column is ever reset to NULL. -/
theorem update_calculations_never_nulls (db : SnapshotStore) (sid : Nat)
    (f1 f2 f3 f4 f5 f6 f7 f8 : Option Int) (sess : Option (List SessVal))
    (db2 : SnapshotStore)
    (h : update_snapshot_calculations db sid f1 f2 f3 f4 f5 f6 f7 f8 sess = Except.ok db2) :
    ∀ r2 ∈ db2.rows, ∃ r ∈ db.rows, r2.id = r.id ∧
      (r2.five_hour_tokens_consumed = r.five_hour_tokens_consumed ∨
        r2.five_hour_tokens_consumed.isSome = true) ∧
      (r2.five_hour_messages_count = r.five_hour_messages_count ∨
        r2.five_hour_messages_count.isSome = true) ∧
      (r2.seven_day_tokens_consumed = r.seven_day_tokens_consumed ∨
        r2.seven_day_tokens_consumed.isSome = true) ∧
      (r2.seven_day_messages_count = r.seven_day_messages_count ∨
        r2.seven_day_messages_count.isSome = true) ∧
      (r2.five_hour_tokens_total = r.five_hour_tokens_total ∨
        r2.five_hour_tokens_total.isSome = true) ∧
      (r2.five_hour_messages_total = r.five_hour_messages_total ∨
        r2.five_hour_messages_total.isSome = true) ∧
      (r2.seven_day_tokens_total = r.seven_day_tokens_total ∨
        r2.seven_day_tokens_total.isSome = true) ∧
      (r2.seven_day_messages_total = r.seven_day_messages_total ∨
        r2.seven_day_messages_total.isSome = true) ∧
      (r2.active_sessions = r.active_sessions ∨ r2.active_sessions.isSome = true) := by
  unfold update_snapshot_calculations at h
  rcases hval : (match sess with
      | some ids => Except.map (fun v => some (jsonDumps v)) (validate_session_ids ids)
      | none => Except.ok none) with e | asJson
  · rw [hval] at h
    simp at h
  · rw [hval] at h
    split at h
    · rename_i e heq
      cases heq
    · rename_i j heq
      injection heq with heq2
      subst heq2
      split at h
      · injection h with h2
        subst h2
        intro r2 hr2
        exact ⟨r2, hr2, rfl, Or.inl rfl, Or.inl rfl, Or.inl rfl, Or.inl rfl, Or.inl rfl,
          Or.inl rfl, Or.inl rfl, Or.inl rfl, Or.inl rfl⟩
      · injection h with h2
        subst h2
        intro r2 hr2
        obtain ⟨r, hr, hfr⟩ := List.mem_map.mp hr2
        refine ⟨r, hr, ?_⟩
        rw [← hfr]
        by_cases hid : r.id = sid
        · rw [if_pos hid]
          exact ⟨rfl, updCol_frame _ _, updCol_frame _ _, updCol_frame _ _, updCol_frame _ _,
            updCol_frame _ _, updCol_frame _ _, updCol_frame _ _, updCol_frame _ _,
            updCol_frame _ _⟩
        · rw [if_neg hid]
          exact ⟨rfl, Or.inl rfl, Or.inl rfl, Or.inl rfl, Or.inl rfl, Or.inl rfl,
            Or.inl rfl, Or.inl rfl, Or.inl rfl, Or.inl rfl⟩

/-- C9 witness: applying the invariant to a concrete successful update of the
one-row fixture. -/
theorem update_calculations_never_nulls_witness :
    update_snapshot_calculations sampleStore 1 (some 5) none none none none none none none none
      = Except.ok sampleStoreUpdated ∧
    ∀ r2 ∈ sampleStoreUpdated.rows, ∃ r ∈ sampleStore.rows, r2.id = r.id ∧
      (r2.five_hour_tokens_consumed = r.five_hour_tokens_consumed ∨
        r2.five_hour_tokens_consumed.isSome = true) ∧
      (r2.five_hour_messages_count = r.five_hour_messages_count ∨
        r2.five_hour_messages_count.isSome = true) ∧
      (r2.seven_day_tokens_consumed = r.seven_day_tokens_consumed ∨
        r2.seven_day_tokens_consumed.isSome = true) ∧
      (r2.seven_day_messages_count = r.seven_day_messages_count ∨
        r2.seven_day_messages_count.isSome = true) ∧
      (r2.five_hour_tokens_total = r.five_hour_tokens_total ∨
        r2.five_hour_tokens_total.isSome = true) ∧
      (r2.five_hour_messages_total = r.five_hour_messages_total ∨
        r2.five_hour_messages_total.isSome = true) ∧
      (r2.seven_day_tokens_total = r.seven_day_tokens_total ∨
        r2.seven_day_tokens_total.isSome = true) ∧
      (r2.seven_day_messages_total = r.seven_day_messages_total ∨
        r2.seven_day_messages_total.isSome = true) ∧
      (r2.active_sessions = r.active_sessions ∨ r2.active_sessions.isSome = true) :=
  ⟨rfl, update_calculations_never_nulls sampleStore 1 (some 5) none none none none none
    none none none sampleStoreUpdated rfl⟩

/-- C7: `get_latest_snapshot` returns `none` exactly when the store is empty,
and otherwise returns a stored row whose timestamp is maximal among all
rows — independent of insertion (id) order, since the bound is over every
row of the store. -/
theorem get_latest_snapshot_max (db : SnapshotStore) :
    (get_latest_snapshot db = none ↔ db.rows = []) ∧
    ∀ r, get_latest_snapshot db = some r →
      r ∈ db.rows ∧ ∀ x ∈ db.rows, x.timestamp ≤ r.timestamp := by
  unfold get_latest_snapshot
  cases hrows : db.rows with
  | nil =>
      constructor
      · simp
      · intro r h
        simp [List.foldl] at h
  | cons a l =>
      rw [List.foldl_cons, latestStep_none]
      obtain ⟨r0, hr0, hmem, hle, hall⟩ := latestFold_spec l a
      rw [hr0]
      constructor
      · constructor
        · intro h; cases h
        · intro h; cases h
      · intro r h
        have he : r0 = r := Option.some.inj h
        subst he
        constructor
        · rcases hmem with he2 | hm
          · rw [he2]; exact List.mem_cons_self a l
          · exact List.mem_cons_of_mem a hm
        · intro x hx
          rcases List.mem_cons.mp hx with he2 | hm
          · rw [he2]; exact hle
          · exact hall x hm

/-- C7 witness: on a store whose insertion order is 01, 03, 02 the returned
row is the one with timestamp 03. -/
theorem get_latest_snapshot_max_witness :
    get_latest_snapshot latestDb = some (mkTickRow 3 "2025-01-03T00:00:00Z" 30 30) ∧
    (mkTickRow 3 "2025-01-03T00:00:00Z" 30 30) ∈ latestDb.rows ∧
    ∀ x ∈ latestDb.rows,
      x.timestamp ≤ (mkTickRow 3 "2025-01-03T00:00:00Z" 30 30).timestamp := by
  have h13 : ("2025-01-01T00:00:00Z" : String) < "2025-01-03T00:00:00Z" := by
    simp
    decide
  have h32 : ¬ ("2025-01-03T00:00:00Z" : String) < "2025-01-02T00:00:00Z" := by
    simp
    decide
  have heq : get_latest_snapshot latestDb = some (mkTickRow 3 "2025-01-03T00:00:00Z" 30 30) := by
    simp only [get_latest_snapshot, latestDb, List.foldl, latestStep_none, latestStep_some,
      mkTickRow]
    rw [if_pos h13, latestStep_some, if_neg h32]
  have hmain := (get_latest_snapshot_max latestDb).2 _ heq
  exact ⟨heq, hmain.1, hmain.2⟩

/-- C2 counterexample: the claim says an invalid `active_sessions` entry is
degraded to NULL with a warning and the call does not raise; in the code,
`update_snapshot_calculations` calls `validate_session_ids` without a
try/except, so this concrete call raises `ValueError` instead (its own
docstring documents the raise), and no numeric field is written. -/
theorem update_calculations_invalid_sessions_counterexample :
    update_snapshot_calculations sampleStore 1 (some 1000) none none none none none none none
      (some [SessVal.str "session@invalid"])
      = Except.error "Session ID contains invalid characters: session@invalid" := by
  rfl

/-- C2 amended: for every call of `update_snapshot_calculations` whose
`active_sessions` argument fails validation, the call raises the validation
error before any write — `active_sessions` is not stored and the supplied
numeric delta/total fields are not written (that is the behaviour of the
legacy `insert_snapshot`, not of `update_snapshot_calculations`). -/
theorem update_calculations_invalid_sessions_raise (db : SnapshotStore) (sid : Nat)
    (f1 f2 f3 f4 f5 f6 f7 f8 : Option Int) (ids : List SessVal) (e : String)
    (h : validate_session_ids ids = Except.error e) :
    update_snapshot_calculations db sid f1 f2 f3 f4 f5 f6 f7 f8 (some ids)
      = Except.error e := by
  unfold update_snapshot_calculations
  split
  · rename_i e2 heq
    have heq2 : Except.map (fun v => some (jsonDumps v)) (validate_session_ids ids)
        = Except.error e2 := heq
    rw [h] at heq2
    simp only [Except.map] at heq2
    injection heq2 with h3
    subst h3
    rfl
  · rename_i j heq
    have heq2 : Except.map (fun v => some (jsonDumps v)) (validate_session_ids ids)
        = Except.ok j := heq
    rw [h] at heq2
    simp only [Except.map] at heq2
    cases heq2

/-- C2 witness: the amended claim applied to a concrete invalid entry. -/
theorem update_calculations_invalid_sessions_raise_witness :
    validate_session_ids [SessVal.str "bad id"]
      = Except.error "Session ID contains invalid characters: bad id" ∧
    update_snapshot_calculations sampleStore 1 (some 7) none none none none none none none
      (some [SessVal.str "bad id"])
      = Except.error "Session ID contains invalid characters: bad id" :=
  ⟨rfl, update_calculations_invalid_sessions_raise sampleStore 1 (some 7) none none none
    none none none none [SessVal.str "bad id"]
    "Session ID contains invalid characters: bad id" rfl⟩

/-- C1: on an HTTP 401 the poller requests exactly one fresh token; if the
refreshed token equals the one just used the cycle aborts with failure after
exactly 1 outbound call, otherwise it retries exactly once (2 outbound
calls) with the new token and the retry outcome — success or failure — is
final for the cycle. -/
theorem poller_401_refresh_protocol (token t2 : String) (resp1 resp2 : Nat × UsageData)
    (h401 : resp1.1 = 401) :
    (pollerFetchUsage token resp1 resp2 (some t2)).refreshRequests = 1 ∧
    (t2 = token →
      pollerFetchUsage token resp1 resp2 (some t2)
        = { result := none, finalToken := token, outboundCalls := 1, refreshRequests := 1 }) ∧
    (t2 ≠ token →
      (pollerFetchUsage token resp1 resp2 (some t2)).outboundCalls = 2 ∧
      (pollerFetchUsage token resp1 resp2 (some t2)).finalToken = t2 ∧
      (resp2.1 = 200 →
        (pollerFetchUsage token resp1 resp2 (some t2)).result = some resp2.2) ∧
      (resp2.1 ≠ 200 →
        (pollerFetchUsage token resp1 resp2 (some t2)).result = none)) := by
  simp only [pollerFetchUsage, h401]
  by_cases ht : t2 = token
  · rw [if_pos ht]
    exact ⟨rfl, fun _ => rfl, fun hne => absurd ht hne⟩
  · rw [if_neg ht]
    by_cases hr2 : resp2.1 = 200
    · rw [if_pos hr2]
      exact ⟨rfl, fun he => absurd he ht,
        fun _ => ⟨rfl, rfl, fun _ => rfl, fun hn => absurd hr2 hn⟩⟩
    · rw [if_neg hr2]
      exact ⟨rfl, fun he => absurd he ht,
        fun _ => ⟨rfl, rfl, fun h2 => absurd h2 hr2, fun _ => rfl⟩⟩

/-- C1 witness: a 401 followed by a 200 under a genuinely refreshed token. -/
theorem poller_401_refresh_protocol_witness :
    (pollerFetchUsage "tok-a" (401, emptyUsageData) (200, mkUsageData 10 10)
      (some "tok-b")).refreshRequests = 1 ∧
    ("tok-b" = "tok-a" →
      pollerFetchUsage "tok-a" (401, emptyUsageData) (200, mkUsageData 10 10) (some "tok-b")
        = { result := none, finalToken := "tok-a", outboundCalls := 1, refreshRequests := 1 }) ∧
    ("tok-b" ≠ "tok-a" →
      (pollerFetchUsage "tok-a" (401, emptyUsageData) (200, mkUsageData 10 10)
        (some "tok-b")).outboundCalls = 2 ∧
      (pollerFetchUsage "tok-a" (401, emptyUsageData) (200, mkUsageData 10 10)
        (some "tok-b")).finalToken = "tok-b" ∧
      ((200 : Nat) = 200 →
        (pollerFetchUsage "tok-a" (401, emptyUsageData) (200, mkUsageData 10 10)
          (some "tok-b")).result = some (mkUsageData 10 10)) ∧
      ((200 : Nat) ≠ 200 →
        (pollerFetchUsage "tok-a" (401, emptyUsageData) (200, mkUsageData 10 10)
          (some "tok-b")).result = none)) :=
  poller_401_refresh_protocol "tok-a" "tok-b" (401, emptyUsageData) (200, mkUsageData 10 10) rfl

theorem shouldSnapshot_eq_true_iff (prev : PrevUsage) (u5 u7 : Rat) :
    shouldSnapshot prev u5 u7 = true ↔
      ((∃ p, prev.five_hour_used = some p ∧ p < u5) ∨
       (∃ p, prev.seven_day_used = some p ∧ p < u7)) := by
  rcases h5 : prev.five_hour_used with _ | p5 <;>
    rcases h7 : prev.seven_day_used with _ | p7 <;>
      simp [shouldSnapshot, h5, h7]

theorem fetch_cache_miss (st : PollerState) (t : Rat) (token : Option String)
    (outcome : HttpOutcome) (now : String)
    (h : st.cache.data = none ∨ ¬ t - st.cache.timestamp < st.cache.cache_duration) :
    fetch_usage_data st t token outcome now = fetchNetwork st t token outcome now := by
  unfold fetch_usage_data
  rcases hd : st.cache.data with _ | d
  · rfl
  · rcases h with h1 | h2
    · rw [hd] at h1
      cases h1
    · show (if t - st.cache.timestamp < st.cache.cache_duration
            then (FetchResult.payload d, st)
            else fetchNetwork st t token outcome now)
          = fetchNetwork st t token outcome now
      rw [if_neg h2]

/-- C3: in a poll step that reaches the network and gets a 200, when at least
one previous-usage value is set, a snapshot row is inserted (store grows by
one) exactly when a set previous value is strictly exceeded by the
corresponding new utilization — equal or lower readings insert nothing — and
both previous-value slots are set to the new reading either way. -/
theorem reconciler_snapshot_iff (st : PollerState) (t : Rat) (tok : String)
    (body : UsageData) (text now : String)
    (hcache : st.cache.data = none ∨ ¬ t - st.cache.timestamp < st.cache.cache_duration)
    (hprev : st.previous.five_hour_used.isSome = true ∨
      st.previous.seven_day_used.isSome = true) :
    ((fetch_usage_data st t (some tok) (HttpOutcome.response 200 body text) now).2.db.rows.length
        = st.db.rows.length + 1 ↔
      ((∃ p, st.previous.five_hour_used = some p ∧ p < utilOf body.five_hour) ∨
       (∃ p, st.previous.seven_day_used = some p ∧ p < utilOf body.seven_day))) ∧
    (¬ ((∃ p, st.previous.five_hour_used = some p ∧ p < utilOf body.five_hour) ∨
        (∃ p, st.previous.seven_day_used = some p ∧ p < utilOf body.seven_day)) →
      (fetch_usage_data st t (some tok) (HttpOutcome.response 200 body text) now).2.db
        = st.db) ∧
    (fetch_usage_data st t (some tok) (HttpOutcome.response 200 body text) now).2.previous
      = { five_hour_used := some (utilOf body.five_hour)
          seven_day_used := some (utilOf body.seven_day) } := by
  rw [fetch_cache_miss st t (some tok) (HttpOutcome.response 200 body text) now hcache]
  simp only [fetchNetwork]
  rw [if_pos trivial]
  cases hss : shouldSnapshot st.previous (utilOf body.five_hour) (utilOf body.seven_day) with
  | false =>
      rw [if_neg (fun hc => Bool.noConfusion hc)]
      have htr : ¬ ((∃ p, st.previous.five_hour_used = some p ∧ p < utilOf body.five_hour) ∨
          (∃ p, st.previous.seven_day_used = some p ∧ p < utilOf body.seven_day)) := by
        intro htr
        rw [(shouldSnapshot_eq_true_iff st.previous (utilOf body.five_hour)
          (utilOf body.seven_day)).mpr htr] at hss
        cases hss
      refine ⟨?_, fun _ => rfl, rfl⟩
      constructor
      · intro hlen
        exact absurd hlen (Nat.ne_of_lt (Nat.lt_succ_self _))
      · intro htr2
        exact absurd htr2 htr
  | true =>
      rw [if_pos (rfl : (true : Bool) = true)]
      have htr := (shouldSnapshot_eq_true_iff st.previous (utilOf body.five_hour)
        (utilOf body.seven_day)).mp hss
      refine ⟨?_, fun hn => absurd htr hn, rfl⟩
      constructor
      · intro _
        exact htr
      · intro _
        simp [insert_snapshot]

/-- Poller state with a populated previous-usage watermark (50, 30), an empty
cache and an empty store. -/
def reconcilerState : PollerState :=
  { cache := { data := none, timestamp := 0, cache_duration := 60 }
    previous := { five_hour_used := some 50, seven_day_used := some 30 }
    db := SnapshotStore.empty }

/-- Poller state before the first observation: both previous values unset. -/
def firstPollState : PollerState :=
  { cache := { data := none, timestamp := 0, cache_duration := 60 }
    previous := { five_hour_used := none, seven_day_used := none }
    db := SnapshotStore.empty }

/-- C3 witness: previous `(50, 30)` and reading `(51, 30)` — the five-hour
increase inserts exactly one row and both slots take the new reading. -/
theorem reconciler_snapshot_iff_witness :
    ((fetch_usage_data reconcilerState 100 (some "tok")
        (HttpOutcome.response 200 (mkUsageData 51 30) "") "t1").2.db.rows.length
        = reconcilerState.db.rows.length + 1 ↔
      ((∃ p, reconcilerState.previous.five_hour_used = some p ∧
          p < utilOf (mkUsageData 51 30).five_hour) ∨
       (∃ p, reconcilerState.previous.seven_day_used = some p ∧
          p < utilOf (mkUsageData 51 30).seven_day))) ∧
    (¬ ((∃ p, reconcilerState.previous.five_hour_used = some p ∧
          p < utilOf (mkUsageData 51 30).five_hour) ∨
        (∃ p, reconcilerState.previous.seven_day_used = some p ∧
          p < utilOf (mkUsageData 51 30).seven_day)) →
      (fetch_usage_data reconcilerState 100 (some "tok")
        (HttpOutcome.response 200 (mkUsageData 51 30) "") "t1").2.db
        = reconcilerState.db) ∧
    (fetch_usage_data reconcilerState 100 (some "tok")
        (HttpOutcome.response 200 (mkUsageData 51 30) "") "t1").2.previous
      = { five_hour_used := some (utilOf (mkUsageData 51 30).five_hour)
          seven_day_used := some (utilOf (mkUsageData 51 30).seven_day) } :=
  reconciler_snapshot_iff reconcilerState 100 "tok" (mkUsageData 51 30) "" "t1"
    (Or.inl rfl) (Or.inl rfl)

/-- C4 counterexample: the claim says the first observation is still recorded
in the Snapshot Store via a Phase-1 insert; in `app.py` the snapshot branch
runs only when `should_snapshot` is true, which is impossible when both
previous values are unset, so after a first-ever 200 poll the store is still
empty — nothing was inserted. -/
theorem first_observation_counterexample :
    (fetch_usage_data firstPollState 100 (some "tok")
      (HttpOutcome.response 200 (mkUsageData 50 30) "") "2025-01-01T00:00:00Z").2.db.rows
      = [] := by
  rfl

/-- C4 amended: on the first observation ever (both previous-usage values
unset) a network poll returning 200 triggers no snapshot event and inserts no
row at all — the raw reading is only returned, cached and stored into the
previous-usage watermark. -/
theorem first_observation_no_insert (st : PollerState) (t : Rat) (tok : String)
    (body : UsageData) (text now : String)
    (hcache : st.cache.data = none ∨ ¬ t - st.cache.timestamp < st.cache.cache_duration)
    (h5 : st.previous.five_hour_used = none) (h7 : st.previous.seven_day_used = none) :
    (fetch_usage_data st t (some tok) (HttpOutcome.response 200 body text) now).1
      = FetchResult.payload body ∧
    (fetch_usage_data st t (some tok) (HttpOutcome.response 200 body text) now).2.db
      = st.db ∧
    (fetch_usage_data st t (some tok) (HttpOutcome.response 200 body text) now).2.previous
      = { five_hour_used := some (utilOf body.five_hour)
          seven_day_used := some (utilOf body.seven_day) } := by
  rw [fetch_cache_miss st t (some tok) (HttpOutcome.response 200 body text) now hcache]
  simp only [fetchNetwork]
  rw [if_pos trivial]
  have hss : shouldSnapshot st.previous (utilOf body.five_hour) (utilOf body.seven_day)
      = false := by
    simp [shouldSnapshot, h5, h7]
  rw [hss, if_neg (fun hc => Bool.noConfusion hc)]
  exact ⟨rfl, rfl, rfl⟩

/-- C4 witness (for the amended claim): a first-ever reading `(50, 30)`. -/
theorem first_observation_no_insert_witness :
    (fetch_usage_data firstPollState 100 (some "tok")
      (HttpOutcome.response 200 (mkUsageData 50 30) "") "t1").1
      = FetchResult.payload (mkUsageData 50 30) ∧
    (fetch_usage_data firstPollState 100 (some "tok")
      (HttpOutcome.response 200 (mkUsageData 50 30) "") "t1").2.db
      = firstPollState.db ∧
    (fetch_usage_data firstPollState 100 (some "tok")
      (HttpOutcome.response 200 (mkUsageData 50 30) "") "t1").2.previous
      = { five_hour_used := some (utilOf (mkUsageData 50 30).five_hour)
          seven_day_used := some (utilOf (mkUsageData 50 30).seven_day) } :=
  first_observation_no_insert firstPollState 100 "tok" (mkUsageData 50 30) "" "t1"
    (Or.inl rfl) rfl rfl

/-- C8: in a poll cycle that reaches the network, any HTTP status other than
200 yields the error payload carrying the status and the response text, and
a raised network error yields an error payload carrying its message; in both
cases the entire poller state — the cache, the previous-usage watermark and
the snapshot store — is returned unchanged, so nothing is inserted. -/
theorem non_success_leaves_state (st : PollerState) (t : Rat) (tok : String) (now : String)
    (hcache : st.cache.data = none ∨ ¬ t - st.cache.timestamp < st.cache.cache_duration) :
    (∀ status body text, status ≠ 200 →
      fetch_usage_data st t (some tok) (HttpOutcome.response status body text) now
        = (FetchResult.error ("API returned status " ++ toString status) (some text), st)) ∧
    (∀ msg, fetch_usage_data st t (some tok) (HttpOutcome.netError msg) now
        = (FetchResult.error msg none, st)) := by
  constructor
  · intro status body text hs
    rw [fetch_cache_miss st t (some tok) (HttpOutcome.response status body text) now hcache]
    simp only [fetchNetwork]
    rw [if_neg hs]
  · intro msg
    rw [fetch_cache_miss st t (some tok) (HttpOutcome.netError msg) now hcache]
    rfl

/-- C8 witness: a 500 response and a network timeout, both leaving the state
untouched. -/
theorem non_success_leaves_state_witness :
    (fetch_usage_data firstPollState 100 (some "tok")
      (HttpOutcome.response 500 emptyUsageData "oops") "t1"
      = (FetchResult.error ("API returned status " ++ toString (500 : Nat)) (some "oops"),
         firstPollState)) ∧
    (fetch_usage_data firstPollState 100 (some "tok") (HttpOutcome.netError "timeout") "t1"
      = (FetchResult.error "timeout" none, firstPollState)) :=
  ⟨(non_success_leaves_state firstPollState 100 "tok" "t1" (Or.inl rfl)).1 500
      emptyUsageData "oops" (by decide),
   (non_success_leaves_state firstPollState 100 "tok" "t1" (Or.inl rfl)).2 "timeout"⟩

/-- A fully populated session row used as the pre-existing row in fixtures. -/
def sessionRowOld : SessionRow :=
  { id := 1
    session_id := "s-1"
    start_time := "2025-01-01T00:00:00Z"
    end_time := some "2025-01-01T01:00:00Z"
    total_messages := 3
    total_tokens := 42
    input_tokens := 20
    output_tokens := 22
    model_used := some "m1"
    has_plans := 1
    has_todos := 1
    plan_count := 2
    todo_count := 4
    created_at := "2025-01-01T00:00:00Z"
    updated_at := "2025-01-01T00:00:00Z" }

/-- A session table holding `sessionRowOld`. -/
def sessionDb : SessionStore :=
  { rows := [sessionRowOld], nextId := 2 }

/-- C10: upserting an existing `session_id` with only the required arguments
(all optional parameters at their Python defaults) replaces the whole row:
the row read back has `end_time` and `model_used` NULL and every count and
flag 0 — prior values are not merged — and, because INSERT OR REPLACE
deletes and re-inserts, the surrogate id is a fresh AUTOINCREMENT value
(different from the old one) and `created_at` is re-stamped to the new
call's CURRENT_TIMESTAMP, so it changes whenever the clock has moved. -/
theorem upsert_session_replaces (db : SessionStore) (h : db.WF) (r : SessionRow)
    (hr : r ∈ db.rows) (start2 now : String)
    (hnow : now ≠ r.created_at) :
    ∃ r2, get_session_details
        (insert_session db r.session_id start2 0 0 0 0 none false false 0 0 none now)
        r.session_id = some r2 ∧
      r2.end_time = none ∧ r2.model_used = none ∧ r2.total_messages = 0 ∧
      r2.total_tokens = 0 ∧ r2.input_tokens = 0 ∧ r2.output_tokens = 0 ∧
      r2.has_plans = 0 ∧ r2.has_todos = 0 ∧ r2.plan_count = 0 ∧ r2.todo_count = 0 ∧
      r2.created_at = now ∧ r2.id ≠ r.id ∧ r2.created_at ≠ r.created_at := by
  refine ⟨{ id := db.nextId
            session_id := r.session_id
            start_time := start2
            end_time := none
            total_messages := 0
            total_tokens := 0
            input_tokens := 0
            output_tokens := 0
            model_used := none
            has_plans := 0
            has_todos := 0
            plan_count := 0
            todo_count := 0
            created_at := now
            updated_at := now }, ?_, rfl, rfl, rfl, rfl, rfl, rfl, rfl, rfl, rfl, rfl, rfl,
          ?_, hnow⟩
  · unfold get_session_details insert_session
    rw [find?_append_none]
    · simp [List.find?]
    · rw [List.find?_eq_none]
      intro x hx
      have hmem := List.mem_filter.mp hx
      simp only [decide_eq_true_eq] at hmem ⊢
      intro hxe
      exact absurd hxe (by simpa using hmem.2)
  · exact Ne.symm (Nat.ne_of_lt (h r hr))

/-- C10 witness: re-upserting `s-1` with only the required arguments on a
one-row table whose existing row has every optional column populated. -/
theorem upsert_session_replaces_witness :
    ∃ r2, get_session_details
        (insert_session sessionDb sessionRowOld.session_id "2025-01-02T00:00:00Z"
          0 0 0 0 none false false 0 0 none "2025-01-02T00:00:00Z")
        sessionRowOld.session_id = some r2 ∧
      r2.end_time = none ∧ r2.model_used = none ∧ r2.total_messages = 0 ∧
      r2.total_tokens = 0 ∧ r2.input_tokens = 0 ∧ r2.output_tokens = 0 ∧
      r2.has_plans = 0 ∧ r2.has_todos = 0 ∧ r2.plan_count = 0 ∧ r2.todo_count = 0 ∧
      r2.created_at = "2025-01-02T00:00:00Z" ∧ r2.id ≠ sessionRowOld.id ∧
      r2.created_at ≠ sessionRowOld.created_at :=
  upsert_session_replaces sessionDb
    (by intro x hx
        rw [show sessionDb.rows = [sessionRowOld] from rfl, List.mem_singleton] at hx
        subst hx
        decide)
    sessionRowOld (List.mem_cons_self sessionRowOld [])
    "2025-01-02T00:00:00Z" "2025-01-02T00:00:00Z" (by decide)
